import Mathlib

/-!
Verification of the Medlyze analytics core: the longitudinal biomarker trend
engine (extraction, regression-based trend classification) and the clinical
risk scorers (Framingham cardiovascular, diabetes) with their composite
aggregator.  Numbers are embedded as exact rationals; where JavaScript
division can produce Infinity or NaN, results use the JsNum type below.
-/

set_option autoImplicit false

namespace Medlyze

/-- Result of a JavaScript numeric computation: a finite value (embedded as an
exact rational) or one of the non-finite values Infinity, -Infinity, NaN that
division by zero produces. -/
inductive JsNum where
  | nan
  | posInf
  | negInf
  | fin (q : ℚ)
  deriving DecidableEq, Repr

/-- JavaScript division a / b: division by zero yields NaN when the numerator
is also 0, otherwise an infinity signed like the numerator. -/
def jsDivQ (a b : ℚ) : JsNum :=
  if b = 0 then
    (if a = 0 then JsNum.nan else if 0 < a then JsNum.posInf else JsNum.negInf)
  else JsNum.fin (a / b)

/-- Multiplication of a JavaScript division result by the positive literal 100
(Infinity * 100 = Infinity, NaN * 100 = NaN). -/
def jsMul100 : JsNum → JsNum
  | JsNum.nan => JsNum.nan
  | JsNum.posInf => JsNum.posInf
  | JsNum.negInf => JsNum.negInf
  | JsNum.fin q => JsNum.fin (q * 100)

/-- JavaScript comparison x < q for a rational literal q; comparisons against
NaN are false. -/
def jsLtQ : JsNum → ℚ → Bool
  | JsNum.nan, _ => false
  | JsNum.posInf, _ => false
  | JsNum.negInf, _ => true
  | JsNum.fin a, q => decide (a < q)

/-- JavaScript comparison x > q for a rational literal q; comparisons against
NaN are false. -/
def jsGtQ : JsNum → ℚ → Bool
  | JsNum.nan, _ => false
  | JsNum.posInf, _ => true
  | JsNum.negInf, _ => false
  | JsNum.fin a, q => decide (q < a)

/-! ## Trend classifier (trendAnalysis module) -/

/-- Trend classification returned by the trend classifier. -/
inductive Trend where
  | IMPROVING
  | WORSENING
  | STABLE
  | INSUFFICIENT_DATA
  deriving DecidableEq, Repr

/-- Embeds calculateTrendDirection: simple linear regression of value against
list index (index 0 = first list element), normalized to percent of average
value per measurement step: (slope / avgValue) * 100.  The OLS denominator
n * sumX2 - sumX ^ 2 is positive for n ≥ 2, so plain rational division models
the JavaScript division computing the slope; the final division by the
average uses JavaScript semantics (jsDivQ) since the average may be zero. -/
def calculateTrendDirection (values : List ℚ) : JsNum :=
  if values.length < 2 then JsNum.fin 0
  else
    let n : ℚ := values.length
    let idx := List.range values.length
    let sumX : ℚ := (idx.map fun i => (i : ℚ)).foldl (fun a b => a + b) 0
    let sumY : ℚ := values.foldl (fun a b => a + b) 0
    let sumXY : ℚ := (values.enum.map fun p => (p.1 : ℚ) * p.2).foldl (fun a b => a + b) 0
    let sumX2 : ℚ := (idx.map fun i => (i : ℚ) * (i : ℚ)).foldl (fun a b => a + b) 0
    let slope : ℚ := (n * sumXY - sumX * sumY) / (n * sumX2 - sumX * sumX)
    let avgValue : ℚ := sumY / n
    jsMul100 (jsDivQ slope avgValue)

/-- Healthy range and directionality for one biomarker type. -/
structure BiomarkerThresholds where
  low : ℚ
  high : JsNum
  lowerIsBetter : Bool
  deriving DecidableEq, Repr

/-- Embeds getBiomarkerThresholds: the static threshold table, with the
default entry low 0, high Infinity, lowerIsBetter true for unknown types. -/
def getBiomarkerThresholds (biomarkerType : String) : BiomarkerThresholds :=
  if biomarkerType = "cholesterol_total" then ⟨125, JsNum.fin 200, true⟩
  else if biomarkerType = "cholesterol_ldl" then ⟨0, JsNum.fin 100, true⟩
  else if biomarkerType = "cholesterol_hdl" then ⟨40, JsNum.fin 200, false⟩
  else if biomarkerType = "triglycerides" then ⟨0, JsNum.fin 150, true⟩
  else if biomarkerType = "glucose_fasting" then ⟨70, JsNum.fin 100, true⟩
  else if biomarkerType = "hba1c" then ⟨4, JsNum.fin (57 / 10), true⟩
  else if biomarkerType = "bp_systolic" then ⟨90, JsNum.fin 120, true⟩
  else if biomarkerType = "bp_diastolic" then ⟨60, JsNum.fin 80, true⟩
  else if biomarkerType = "heart_rate" then ⟨60, JsNum.fin 100, true⟩
  else if biomarkerType = "creatinine" then ⟨3 / 5, JsNum.fin (6 / 5), true⟩
  else ⟨0, JsNum.posInf, true⟩

/-- Result of the trend classifier.  The interpretation and alert strings of
the source are narrative only and are not modelled; dataPoints keeps the
values (their timestamps are opaque to the classification logic). -/
structure TrendResult where
  biomarkerType : String
  currentValue : ℚ
  previousValue : Option ℚ
  changePercent : Option JsNum
  trend : Trend
  dataPoints : List ℚ
  deriving DecidableEq, Repr

/-- Embeds analyzeBiomarkerTrend.  The prisma query fetches the stored
history ordered by recordedDate descending (most recent first) and takes the
last 12 rows; history here is that full descending list of values and
List.take 12 models the query's take of 12.  In the sufficient-data branch
the source reads historicalData[0].value and historicalData[1].value, which
requires length ≥ 2; all uses in this development pass minDataPoints = 2,
matching the source's default, so those accesses are in bounds. -/
def analyzeBiomarkerTrend (biomarkerType : String) (history : List ℚ)
    (minDataPoints : ℕ) : TrendResult :=
  let historicalData := history.take 12
  if historicalData.length < minDataPoints then
    { biomarkerType := biomarkerType
      currentValue := historicalData.headD 0
      previousValue := none
      changePercent := none
      trend := Trend.INSUFFICIENT_DATA
      dataPoints := historicalData }
  else
    let currentValue := historicalData.headD 0
    let previousValue := (historicalData.drop 1).headD 0
    let changePercent := jsMul100 (jsDivQ (currentValue - previousValue) previousValue)
    let thresholds := getBiomarkerThresholds biomarkerType
    let trendDirection := calculateTrendDirection historicalData
    let trend :=
      if thresholds.lowerIsBetter then
        (if jsLtQ trendDirection (-5) then Trend.IMPROVING
         else if jsGtQ trendDirection 5 then Trend.WORSENING
         else Trend.STABLE)
      else
        (if jsGtQ trendDirection 5 then Trend.IMPROVING
         else if jsLtQ trendDirection (-5) then Trend.WORSENING
         else Trend.STABLE)
    { biomarkerType := biomarkerType
      currentValue := currentValue
      previousValue := some previousValue
      changePercent := some changePercent
      trend := trend
      dataPoints := historicalData }

/-- The trendDirection as the specification words it: ordinary least-squares
slope of value against measurement index with oldest = index 0, normalized to
percent of average value per measurement step, (slope / mean) * 100.  Input is
in chronological order (oldest first).  This definition follows the spec's
words and exists to be compared with calculateTrendDirection applied to the
reverse-chronological list the source actually passes. -/
def specTrendDirectionOldestFirst (chron : List ℚ) : ℚ :=
  let n : ℚ := chron.length
  let idx := List.range chron.length
  let sumX : ℚ := (idx.map fun i => (i : ℚ)).foldl (fun a b => a + b) 0
  let sumY : ℚ := chron.foldl (fun a b => a + b) 0
  let sumXY : ℚ := (chron.enum.map fun p => (p.1 : ℚ) * p.2).foldl (fun a b => a + b) 0
  let sumX2 : ℚ := (idx.map fun i => (i : ℚ) * (i : ℚ)).foldl (fun a b => a + b) 0
  let slope : ℚ := (n * sumXY - sumX * sumY) / (n * sumX2 - sumX * sumX)
  (slope / (sumY / n)) * 100

/-! ## Risk scorers (risk assessment module) -/

inductive BiologicalSex where
  | MALE
  | FEMALE
  deriving DecidableEq, Repr

inductive SmokingStatus where
  | NEVER
  | FORMER
  | CURRENT
  deriving DecidableEq, Repr

inductive RiskCategory where
  | LOW
  | MODERATE
  | HIGH
  | VERY_HIGH
  deriving DecidableEq, Repr

/-- Embeds the RiskFactors interface: age and biologicalSex are required
fields, everything else optional. -/
structure RiskFactors where
  age : ℚ
  biologicalSex : BiologicalSex
  totalCholesterol : Option ℚ := none
  hdlCholesterol : Option ℚ := none
  ldlCholesterol : Option ℚ := none
  systolicBP : Option ℚ := none
  diastolicBP : Option ℚ := none
  smokingStatus : Option SmokingStatus := none
  diabetesStatus : Option Bool := none
  hypertensionTreated : Option Bool := none
  familyHistoryCVD : Option Bool := none
  weight : Option ℚ := none
  height : Option ℚ := none
  waistCircumference : Option ℚ := none
  fastingGlucose : Option ℚ := none
  hba1c : Option ℚ := none
  triglycerides : Option ℚ := none
  deriving DecidableEq, Repr

/-- JavaScript truthiness of a number (0 and NaN are falsy; inputs here are
finite rationals, so only 0 is falsy). -/
def jsTruthyQ (a : ℚ) : Bool := a != 0

/-- JavaScript truthiness of an optional number field: undefined is falsy,
a number is truthy iff nonzero. -/
def jsTruthyOptQ : Option ℚ → Bool
  | none => false
  | some q => q != 0

/-- JavaScript truthiness of an optional boolean field. -/
def jsTruthyOptB : Option Bool → Bool
  | none => false
  | some b => b

/-- Result of one risk scorer.  The factors snapshot, recommendations list
and interpretation sentence of the source are narrative and not modelled. -/
structure RiskAssessmentResult where
  score : ℚ
  riskCategory : RiskCategory
  percentageRisk : ℚ
  validityPeriod : ℕ
  deriving DecidableEq, Repr

/-- Age points table of calculateFraminghamRisk (sex-specific bands). -/
def framinghamAgePoints (isMale : Bool) (age : ℚ) : ℚ :=
  if isMale then
    (if 30 ≤ age ∧ age ≤ 34 then -1
     else if 35 ≤ age ∧ age ≤ 39 then 0
     else if 40 ≤ age ∧ age ≤ 44 then 1
     else if 45 ≤ age ∧ age ≤ 49 then 2
     else if 50 ≤ age ∧ age ≤ 54 then 3
     else if 55 ≤ age ∧ age ≤ 59 then 4
     else if 60 ≤ age ∧ age ≤ 64 then 5
     else if 65 ≤ age ∧ age ≤ 69 then 6
     else if 70 ≤ age ∧ age ≤ 74 then 7
     else if 75 ≤ age then 8
     else 0)
  else
    (if 30 ≤ age ∧ age ≤ 34 then -9
     else if 35 ≤ age ∧ age ≤ 39 then -4
     else if 40 ≤ age ∧ age ≤ 44 then 0
     else if 45 ≤ age ∧ age ≤ 49 then 3
     else if 50 ≤ age ∧ age ≤ 54 then 6
     else if 55 ≤ age ∧ age ≤ 59 then 7
     else if 60 ≤ age ∧ age ≤ 64 then 8
     else if 65 ≤ age ∧ age ≤ 69 then 9
     else if 70 ≤ age ∧ age ≤ 74 then 10
     else if 75 ≤ age then 11
     else 0)

/-- Total-cholesterol points table of calculateFraminghamRisk. -/
def framinghamCholPoints (isMale : Bool) (tc : ℚ) : ℚ :=
  if isMale then
    (if tc < 160 then -3 else if tc < 200 then 0 else if tc < 240 then 1
     else if tc < 280 then 2 else 3)
  else
    (if tc < 160 then -2 else if tc < 200 then 0 else if tc < 240 then 1
     else if tc < 280 then 2 else 3)

/-- HDL-cholesterol points table of calculateFraminghamRisk (same for both
sexes). -/
def framinghamHdlPoints (hdl : ℚ) : ℚ :=
  if hdl < 35 then 2 else if hdl < 45 then 1 else if hdl < 50 then 0
  else if hdl < 60 then -1 else -2

/-- Systolic-blood-pressure points table of calculateFraminghamRisk, keyed on
whether hypertension is treated. -/
def framinghamBpPoints (treated : Bool) (sbp : ℚ) : ℚ :=
  if treated then
    (if sbp < 120 then 0 else if sbp < 130 then 1 else if sbp < 140 then 2
     else if sbp < 160 then 3 else 4)
  else
    (if sbp < 120 then 0 else if sbp < 130 then 1 else if sbp < 140 then 1
     else if sbp < 160 then 2 else 3)

/-- Embeds calculateFraminghamRisk.  The source throws when any of age,
totalCholesterol, hdlCholesterol, systolicBP is falsy (absent or zero);
the Except.error value models that throw.  Past the guard the optional
fields are truthy, so Option.getD 0 reads exactly the present values. -/
def calculateFraminghamRisk (factors : RiskFactors) :
    Except String RiskAssessmentResult :=
  if !jsTruthyQ factors.age || !jsTruthyOptQ factors.totalCholesterol
      || !jsTruthyOptQ factors.hdlCholesterol || !jsTruthyOptQ factors.systolicBP then
    Except.error "Missing required parameters for Framingham calculation"
  else
    let isMale := factors.biologicalSex == BiologicalSex.MALE
    let tc := factors.totalCholesterol.getD 0
    let hdl := factors.hdlCholesterol.getD 0
    let sbp := factors.systolicBP.getD 0
    let points := framinghamAgePoints isMale factors.age
      + framinghamCholPoints isMale tc
      + framinghamHdlPoints hdl
      + framinghamBpPoints (jsTruthyOptB factors.hypertensionTreated) sbp
      + (if factors.smokingStatus = some SmokingStatus.CURRENT then 4 else 0)
      + (if jsTruthyOptB factors.diabetesStatus then 3 else 0)
    let catRisk : RiskCategory × ℚ :=
      if points ≤ 0 then (RiskCategory.LOW, 2)
      else if points ≤ 5 then (RiskCategory.LOW, 3 + points * (3 / 2))
      else if points ≤ 10 then (RiskCategory.MODERATE, 10 + (points - 5) * 2)
      else if points ≤ 15 then (RiskCategory.HIGH, 20 + (points - 10) * 3)
      else (RiskCategory.VERY_HIGH, 35 + (points - 15) * 2)
    Except.ok
      { score := points
        riskCategory := catRisk.1
        percentageRisk := min catRisk.2 60
        validityPeriod := 365 }

/-- Age rule of calculateDiabetesRisk: if (age && age >= 45) +2 else
if (age && age >= 40) +1. -/
def diabetesAgePoints (age : ℚ) : ℚ :=
  if age ≠ 0 ∧ 45 ≤ age then 2 else if age ≠ 0 ∧ 40 ≤ age then 1 else 0

/-- BMI rule of calculateDiabetesRisk: bmi computed when height and weight
are both truthy; then if (bmi) with bands at 30 and 25. -/
def diabetesBmiPoints (weight height : Option ℚ) : ℚ :=
  match height, weight with
  | some h, some w =>
    if h ≠ 0 ∧ w ≠ 0 then
      let bmi := w / (h / 100 * (h / 100))
      (if bmi ≠ 0 then (if 30 ≤ bmi then 3 else if 25 ≤ bmi then 2 else 0) else 0)
    else 0
  | _, _ => 0

/-- Waist-circumference rule of calculateDiabetesRisk (sex-specific
threshold 102 cm male / 88 cm female). -/
def diabetesWaistPoints (isMale : Bool) (waist : Option ℚ) : ℚ :=
  match waist with
  | some wc => if wc ≠ 0 ∧ (if isMale then (102 : ℚ) else 88) ≤ wc then 2 else 0
  | none => 0

/-- Family-history rule of calculateDiabetesRisk. -/
def diabetesFamilyPoints (fh : Option Bool) : ℚ :=
  if fh = some true then 2 else 0

/-- Hypertension rule of calculateDiabetesRisk: systolicBP truthy and
at least 140. -/
def diabetesBpPoints (sbp : Option ℚ) : ℚ :=
  match sbp with
  | some s => if s ≠ 0 ∧ 140 ≤ s then 2 else 0
  | none => 0

/-- Prediabetic fasting-glucose rule of calculateDiabetesRisk:
if (fastingGlucose && fastingGlucose >= 100 && fastingGlucose < 126) +3. -/
def diabetesGlucosePoints (g : Option ℚ) : ℚ :=
  match g with
  | some g => if g ≠ 0 ∧ 100 ≤ g ∧ g < 126 then 3 else 0
  | none => 0

/-- Prediabetic HbA1c rule of calculateDiabetesRisk:
if (hba1c && hba1c >= 5.7 && hba1c < 6.5) +3. -/
def diabetesHba1cPoints (h : Option ℚ) : ℚ :=
  match h with
  | some h => if h ≠ 0 ∧ 5.7 ≤ h ∧ h < 6.5 then 3 else 0
  | none => 0

/-- Embeds calculateDiabetesRisk: the sequential points accumulation of the
source is written as the sum of its independent presence-gated rules, in
source order. -/
def calculateDiabetesRisk (factors : RiskFactors) : RiskAssessmentResult :=
  let points := diabetesAgePoints factors.age
    + diabetesBmiPoints factors.weight factors.height
    + diabetesWaistPoints (factors.biologicalSex == BiologicalSex.MALE)
        factors.waistCircumference
    + diabetesFamilyPoints factors.familyHistoryCVD
    + diabetesBpPoints factors.systolicBP
    + diabetesGlucosePoints factors.fastingGlucose
    + diabetesHba1cPoints factors.hba1c
  let catRisk : RiskCategory × ℚ :=
    if points ≤ 2 then (RiskCategory.LOW, 5)
    else if points ≤ 5 then (RiskCategory.MODERATE, 15)
    else if points ≤ 8 then (RiskCategory.HIGH, 30)
    else (RiskCategory.VERY_HIGH, 50)
  { score := points
    riskCategory := catRisk.1
    percentageRisk := catRisk.2
    validityPeriod := 365 }

/-! ## Composite risk aggregator -/

structure ComprehensiveRiskProfile where
  framingham : Option RiskAssessmentResult
  diabetes : Option RiskAssessmentResult
  overallHealthScore : ℚ
  deriving DecidableEq, Repr

/-- Health-score deduction for the Framingham result (HIGH -20,
VERY_HIGH -35, MODERATE -10). -/
def framinghamDeduction : Option RiskAssessmentResult → ℚ
  | some r =>
    if r.riskCategory = RiskCategory.HIGH then 20
    else if r.riskCategory = RiskCategory.VERY_HIGH then 35
    else if r.riskCategory = RiskCategory.MODERATE then 10
    else 0
  | none => 0

/-- Health-score deduction for the diabetes result (HIGH -15, VERY_HIGH -25,
MODERATE -8). -/
def diabetesDeduction : Option RiskAssessmentResult → ℚ
  | some r =>
    if r.riskCategory = RiskCategory.HIGH then 15
    else if r.riskCategory = RiskCategory.VERY_HIGH then 25
    else if r.riskCategory = RiskCategory.MODERATE then 8
    else 0
  | none => 0

/-- Lifestyle deduction: current smoker -15, former smoker -5. -/
def smokingDeduction : Option SmokingStatus → ℚ
  | some SmokingStatus.CURRENT => 15
  | some SmokingStatus.FORMER => 5
  | _ => 0

/-- Embeds calculateComprehensiveRiskProfile.  The Framingham scorer runs
only when totalCholesterol, hdlCholesterol and systolicBP are all truthy; a
throw inside (age falsy) is caught, leaving the field unset and the score
untouched.  The diabetes scorer runs when age is truthy and weight or
fastingGlucose is.  Deductions accumulate from 100 and the final score is
clamped to [0, 100]. -/
def calculateComprehensiveRiskProfile (factors : RiskFactors) :
    ComprehensiveRiskProfile :=
  let framingham :=
    if jsTruthyOptQ factors.totalCholesterol && jsTruthyOptQ factors.hdlCholesterol
        && jsTruthyOptQ factors.systolicBP then
      (match calculateFraminghamRisk factors with
       | Except.ok r => some r
       | Except.error _ => none)
    else none
  let diabetes :=
    if jsTruthyQ factors.age
        && (jsTruthyOptQ factors.weight || jsTruthyOptQ factors.fastingGlucose) then
      some (calculateDiabetesRisk factors)
    else none
  let raw := 100 - framinghamDeduction framingham - diabetesDeduction diabetes
    - smokingDeduction factors.smokingStatus
  { framingham := framingham
    diabetes := diabetes
    overallHealthScore := max 0 (min 100 raw) }

/-- The glucose/HbA1c contribution of the diabetes scorer as claim C7 words
it: +3 for a present fastingGlucose in the closed band [100, 125] and +3 for
a present hba1c in the closed band [5.7, 6.4].  Follows the claim's words,
for comparison with the source's half-open bands. -/
def claimClosedBandPoints (g h : Option ℚ) : ℚ :=
  (match g with
   | some g => if 100 ≤ g ∧ g ≤ 125 then (3 : ℚ) else 0
   | none => 0)
  + (match h with
     | some h => if 5.7 ≤ h ∧ h ≤ 6.4 then (3 : ℚ) else 0
     | none => 0)

/-! ## Biomarker extractor (trendAnalysis module)

The findings payload is a string.  JSON.parse is modelled by an executable
recursive-descent routine over the character list (jsonParse below); regex
matching of the fixed fallback patterns is modelled by a direct scanner over
the lowercased text. -/

/-- A parsed JSON value. -/
inductive Json where
  | null
  | bool (b : Bool)
  | num (q : ℚ)
  | str (s : String)
  | arr (elems : List Json)
  | obj (fields : List (String × Json))

/-- JSON whitespace (space, tab, newline, carriage return). -/
def jsonSkipWs : List Char → List Char
  | c :: cs => if c = ' ' ∨ c = '\t' ∨ c = '\n' ∨ c = '\r' then jsonSkipWs cs else c :: cs
  | [] => []

/-- Value of a hexadecimal digit, for string \u escapes. -/
def jsonHexVal (c : Char) : Option ℕ :=
  if '0' ≤ c ∧ c ≤ '9' then some (c.toNat - 48)
  else if 'a' ≤ c ∧ c ≤ 'f' then some (c.toNat - 87)
  else if 'A' ≤ c ∧ c ≤ 'F' then some (c.toNat - 55)
  else none

/-- Body of a JSON string after the opening quote: collects characters up to
the closing quote, handling the escape sequences; raw control characters are
rejected, as JSON.parse rejects them. -/
def jsonStrChars (acc : List Char) : List Char → Option (List Char × List Char)
  | [] => none
  | c :: cs =>
    if c = '"' then some (acc.reverse, cs)
    else if c = '\\' then
      match cs with
      | 'u' :: h1 :: h2 :: h3 :: h4 :: cs2 =>
        (match jsonHexVal h1, jsonHexVal h2, jsonHexVal h3, jsonHexVal h4 with
         | some a, some b, some c2, some d =>
           jsonStrChars (Char.ofNat (((a * 16 + b) * 16 + c2) * 16 + d) :: acc) cs2
         | _, _, _, _ => none)
      | e :: cs2 =>
        if e = '"' then jsonStrChars ('"' :: acc) cs2
        else if e = '\\' then jsonStrChars ('\\' :: acc) cs2
        else if e = '/' then jsonStrChars ('/' :: acc) cs2
        else if e = 'b' then jsonStrChars (Char.ofNat 8 :: acc) cs2
        else if e = 'f' then jsonStrChars (Char.ofNat 12 :: acc) cs2
        else if e = 'n' then jsonStrChars ('\n' :: acc) cs2
        else if e = 'r' then jsonStrChars ('\r' :: acc) cs2
        else if e = 't' then jsonStrChars ('\t' :: acc) cs2
        else none
      | [] => none
    else if c.toNat < 32 then none
    else jsonStrChars (c :: acc) cs

/-- Leading decimal digits of a character list, as digit values. -/
def leadingDigits : List Char → List ℕ × List Char
  | c :: cs =>
    if '0' ≤ c ∧ c ≤ '9' then
      let (ds, rest) := leadingDigits cs
      ((c.toNat - 48) :: ds, rest)
    else ([], c :: cs)
  | [] => ([], [])

/-- Natural number denoted by a digit list. -/
def digitsVal (ds : List ℕ) : ℕ := ds.foldl (fun a d => a * 10 + d) 0

/-- Optional fraction part of a JSON number: none for a malformed fraction,
some none when there is no fraction part. -/
def jsonFracPart (cs : List Char) : Option (Option ℚ × List Char) :=
  match cs with
  | '.' :: t =>
    let (fds, rest) := leadingDigits t
    if fds = [] then none
    else some (some ((digitsVal fds : ℚ) / (10 : ℚ) ^ fds.length), rest)
  | _ => some (none, cs)

/-- Optional exponent part of a JSON number: none for a malformed exponent,
some none when there is no exponent part. -/
def jsonExpPart (cs : List Char) : Option (Option ℤ × List Char) :=
  match cs with
  | c :: t =>
    if c = 'e' ∨ c = 'E' then
      let signed : ℤ × List Char :=
        match t with
        | '+' :: u => (1, u)
        | '-' :: u => (-1, u)
        | _ => (1, t)
      let (eds, rest) := leadingDigits signed.2
      if eds = [] then none else some (some (signed.1 * digitsVal eds), rest)
    else some (none, cs)
  | [] => some (none, [])

/-- A JSON number: optional minus, integer part without leading zeros,
optional fraction and exponent; exact rational value. -/
def jsonNumLit (cs : List Char) : Option (ℚ × List Char) :=
  let signAndRest : Bool × List Char :=
    match cs with
    | '-' :: t => (true, t)
    | _ => (false, cs)
  let (ids, cs2) := leadingDigits signAndRest.2
  if ids = [] then none
  else if 1 < ids.length ∧ ids.headD 0 = 0 then none
  else
    match jsonFracPart cs2 with
    | none => none
    | some (fq, cs3) =>
      match jsonExpPart cs3 with
      | none => none
      | some (e, cs4) =>
        let base : ℚ :=
          match fq with
          | none => (digitsVal ids : ℚ)
          | some f => (digitsVal ids : ℚ) + f
        let mag : ℚ :=
          match e with
          | none => base
          | some e =>
            base * (if 0 ≤ e then (10 : ℚ) ^ e.toNat else 1 / (10 : ℚ) ^ (-e).toNat)
        some ((if signAndRest.1 then -mag else mag), cs4)

mutual

/-- JSON value, by recursive descent with fuel; each descent consumes at
least one character before recursing, so fuel = input length + 1 suffices. -/
def jsonVal (fuel : ℕ) (cs : List Char) : Option (Json × List Char) :=
  match fuel with
  | 0 => none
  | fuel + 1 =>
    let cs := jsonSkipWs cs
    match cs with
    | [] => none
    | c :: rest =>
      if c = '{' then
        (match jsonSkipWs rest with
         | '}' :: t => some (Json.obj [], t)
         | cs2 =>
           match jsonMembers fuel cs2 with
           | some (fields, t) => some (Json.obj fields, t)
           | none => none)
      else if c = '[' then
        (match jsonSkipWs rest with
         | ']' :: t => some (Json.arr [], t)
         | cs2 =>
           match jsonElems fuel cs2 with
           | some (elems, t) => some (Json.arr elems, t)
           | none => none)
      else if c = '"' then
        (match jsonStrChars [] rest with
         | some (chars, t) => some (Json.str (String.mk chars), t)
         | none => none)
      else if c = 't' then
        (if rest.take 3 = ['r', 'u', 'e'] then some (Json.bool true, rest.drop 3) else none)
      else if c = 'f' then
        (if rest.take 4 = ['a', 'l', 's', 'e'] then some (Json.bool false, rest.drop 4) else none)
      else if c = 'n' then
        (if rest.take 3 = ['u', 'l', 'l'] then some (Json.null, rest.drop 3) else none)
      else if c = '-' ∨ ('0' ≤ c ∧ c ≤ '9') then
        (match jsonNumLit (c :: rest) with
         | some (q, t) => some (Json.num q, t)
         | none => none)
      else none

/-- Nonempty member list of a JSON object, up to and including the closing
brace. -/
def jsonMembers (fuel : ℕ) (cs : List Char) : Option (List (String × Json) × List Char) :=
  match fuel with
  | 0 => none
  | fuel + 1 =>
    match jsonSkipWs cs with
    | '"' :: rest =>
      (match jsonStrChars [] rest with
       | some (kchars, t) =>
         (match jsonSkipWs t with
          | ':' :: t3 =>
            (match jsonVal fuel t3 with
             | some (v, t4) =>
               (match jsonSkipWs t4 with
                | ',' :: t6 =>
                  (match jsonMembers fuel t6 with
                   | some (fields, t7) => some ((String.mk kchars, v) :: fields, t7)
                   | none => none)
                | '}' :: t6 => some ([(String.mk kchars, v)], t6)
                | _ => none)
             | none => none)
          | _ => none)
       | none => none)
    | _ => none

/-- Nonempty element list of a JSON array, up to and including the closing
bracket. -/
def jsonElems (fuel : ℕ) (cs : List Char) : Option (List Json × List Char) :=
  match fuel with
  | 0 => none
  | fuel + 1 =>
    match jsonVal fuel cs with
    | some (v, t) =>
      (match jsonSkipWs t with
       | ',' :: t3 =>
         (match jsonElems fuel t3 with
          | some (es, t4) => some (v :: es, t4)
          | none => none)
       | ']' :: t3 => some ([v], t3)
       | _ => none)
    | none => none

end

/-- Models JSON.parse: the whole string must be one JSON value surrounded by
optional whitespace; none models the thrown SyntaxError. -/
def jsonParse (s : String) : Option Json :=
  match jsonVal (s.length + 1) s.data with
  | some (j, rest) => if jsonSkipWs rest = [] then some j else none
  | none => none

/-- JavaScript property access findings.k on a non-null value: object field
lookup with the last duplicate key winning (JSON.parse keeps the last), and
undefined (none) on any non-object.  Property access on null throws; callers
model that throw explicitly before using this function. -/
def jsGetV (j : Json) (k : String) : Option Json :=
  match j with
  | Json.obj fields => fields.reverse.lookup k
  | _ => none

/-- JavaScript truthiness of a property-access result (undefined, null, 0,
empty string and false are falsy; objects and arrays are truthy). -/
def jsTruthyJson : Option Json → Bool
  | none => false
  | some Json.null => false
  | some (Json.bool b) => b
  | some (Json.num q) => q != 0
  | some (Json.str s) => s != ""
  | some (Json.arr _) => true
  | some (Json.obj _) => true

/-- One extracted biomarker observation.  The extraction date is the wall
clock at extraction time and is opaque to every property verified here, so
it is not modelled. -/
structure BiomarkerData where
  type : String
  value : Json
  unit : String

/-- One push gated on truthiness of findings.k (the cholesterol subfields,
and heartRate in the ECG branch). -/
def fieldIfTruthy (findings : Json) (k ty unit : String) : List BiomarkerData :=
  match jsGetV findings k with
  | some v => if jsTruthyJson (some v) then [⟨ty, v, unit⟩] else []
  | none => []

/-- One push gated on findings.k !== undefined (glucose, hba1c, creatinine):
a present field is pushed whatever its value, including 0 and null. -/
def fieldIfDefined (findings : Json) (k ty unit : String) : List BiomarkerData :=
  match jsGetV findings k with
  | some v => [⟨ty, v, unit⟩]
  | none => []

/-- The four cholesterol subfield pushes of the BLOOD_TEST branch. -/
def cholesterolObs (chol : Json) : List BiomarkerData :=
  fieldIfTruthy chol "total" "cholesterol_total" "mg/dL"
  ++ fieldIfTruthy chol "hdl" "cholesterol_hdl" "mg/dL"
  ++ fieldIfTruthy chol "ldl" "cholesterol_ldl" "mg/dL"
  ++ fieldIfTruthy chol "triglycerides" "triglycerides" "mg/dL"

/-- BLOOD_TEST branch of the structured path (findings non-null). -/
def bloodTestObs (findings : Json) : List BiomarkerData :=
  (if jsTruthyJson (jsGetV findings "cholesterol") then
    cholesterolObs ((jsGetV findings "cholesterol").getD Json.null)
  else [])
  ++ fieldIfDefined findings "glucose" "glucose_fasting" "mg/dL"
  ++ fieldIfDefined findings "hba1c" "hba1c" "%"
  ++ fieldIfDefined findings "creatinine" "creatinine" "mg/dL"

/-- ECG branch of the structured path (findings non-null); the QTc read uses
optional chaining through findings.intervals. -/
def ecgObs (findings : Json) : List BiomarkerData :=
  fieldIfTruthy findings "heartRate" "heart_rate" "bpm"
  ++ (let qtc : Option Json :=
        match jsGetV findings "intervals" with
        | none => none
        | some Json.null => none
        | some iv => jsGetV iv "QTc"
      if jsTruthyJson qtc then [⟨"qtc_interval", qtc.getD Json.null, "ms"⟩] else [])

/-- Structured-path extraction.  Except.error models the TypeError thrown
when findings is null and the BLOOD_TEST or ECG branch reads a property of
it; the source catches that error and falls back to regex extraction (with
nothing yet pushed, since the throw happens at the first property read).
Report types without a switch case yield no observations. -/
def structuredExtract (findings : Json) (reportType : String) :
    Except Unit (List BiomarkerData) :=
  if reportType = "BLOOD_TEST" then
    match findings with
    | Json.null => Except.error ()
    | _ => Except.ok (bloodTestObs findings)
  else if reportType = "ECG" then
    match findings with
    | Json.null => Except.error ()
    | _ => Except.ok (ecgObs findings)
  else Except.ok []

/-- ASCII lowercasing of a character list (the /i regex flag is modelled by
lowercasing both text and pattern literals). -/
def toLowerChars (cs : List Char) : List Char := cs.map Char.toLower

/-- JavaScript regex \s on the character classes appearing in the fallback
text (space, tab, newline, carriage return, vertical tab, form feed). -/
def jsIsSpace (c : Char) : Bool :=
  c = ' ' ∨ c = '\t' ∨ c = '\n' ∨ c = '\r' ∨ c = Char.ofNat 11 ∨ c = Char.ofNat 12

/-- Greedy tail of [:\s]*. -/
def dropSepMany : List Char → List Char
  | c :: cs => if c = ':' ∨ jsIsSpace c then dropSepMany cs else c :: cs
  | [] => []

/-- [:\s]+ — at least one separator then greedily more. -/
def dropSepPlus (cs : List Char) : Option (List Char) :=
  match cs with
  | c :: t => if c = ':' ∨ jsIsSpace c then some (dropSepMany t) else none
  | [] => none

/-- \s* (greedy). -/
def dropWsMany : List Char → List Char
  | c :: cs => if jsIsSpace c then dropWsMany cs else c :: cs
  | [] => []

/-- The capture (\d+\.?\d*) with its parseFloat value. -/
def captureNumber (cs : List Char) : Option (ℚ × List Char) :=
  let (ids, r1) := leadingDigits cs
  if ids = [] then none
  else
    match r1 with
    | '.' :: r2 =>
      let (fds, r3) := leadingDigits r2
      some ((digitsVal ids : ℚ) + (digitsVal fds : ℚ) / (10 : ℚ) ^ fds.length, r3)
    | _ => some ((digitsVal ids : ℚ), r1)

/-- Match of /label[:\s]+(\d+\.?\d*)\s*unit/ anchored at the current
position; label and unit are already lowercased, text is the lowercased
payload tail. -/
def matchNumUnitAt (label unit text : List Char) : Option ℚ :=
  if label.isPrefixOf text then
    match dropSepPlus (text.drop label.length) with
    | some r1 =>
      (match captureNumber r1 with
       | some (q, r2) => if unit.isPrefixOf (dropWsMany r2) then some q else none
       | none => none)
    | none => none
  else none

/-- First match of the pattern anywhere in the text, scanning start
positions left to right as the regex engine does. -/
def scanNumUnit (label unit : String) (text : List Char) : Option ℚ :=
  match text with
  | [] => none
  | _ :: rest =>
    match matchNumUnitAt (toLowerChars label.data) (toLowerChars unit.data) text with
    | some q => some q
    | none => scanNumUnit label unit rest

/-- Match of /blood pressure[:\s]+(\d+)\/(\d+)/ anchored at the current
position, with the two parseInt captures. -/
def matchBpAt (text : List Char) : Option (ℕ × ℕ) :=
  if ("blood pressure".data).isPrefixOf text then
    match dropSepPlus (text.drop 14) with
    | some r1 =>
      (match leadingDigits r1 with
       | ([], _) => none
       | (d1, r2) =>
         match r2 with
         | '/' :: r3 =>
           (match leadingDigits r3 with
            | ([], _) => none
            | (d2, _) => some (digitsVal d1, digitsVal d2))
         | _ => none)
    | none => none
  else none

/-- First blood-pressure match anywhere in the text. -/
def scanBp (text : List Char) : Option (ℕ × ℕ) :=
  match text with
  | [] => none
  | _ :: rest =>
    match matchBpAt text with
    | some p => some p
    | none => scanBp rest

/-- One entry of the fallback pattern table: a labeled number-with-unit
pattern, or the blood-pressure pair pattern. -/
inductive FallbackPattern where
  | numUnit (label biomarkerType unit : String)
  | bpPair
  deriving DecidableEq, Repr

/-- The fixed ordered fallback pattern table of extractBiomarkers. -/
def fallbackPatterns : List FallbackPattern :=
  [FallbackPattern.numUnit "total cholesterol" "cholesterol_total" "mg/dL",
   FallbackPattern.numUnit "HDL" "cholesterol_hdl" "mg/dL",
   FallbackPattern.numUnit "LDL" "cholesterol_ldl" "mg/dL",
   FallbackPattern.numUnit "glucose" "glucose_fasting" "mg/dL",
   FallbackPattern.numUnit "HbA1c" "hba1c" "%",
   FallbackPattern.numUnit "heart rate" "heart_rate" "bpm",
   FallbackPattern.bpPair]

/-- Observations contributed by one fallback pattern on the lowercased text
(the /i flag is modelled by lowercasing text, label and unit); a
blood-pressure match pushes two observations. -/
def runFallbackPattern (text : List Char) : FallbackPattern → List BiomarkerData
  | FallbackPattern.numUnit label ty unit =>
    (match scanNumUnit label unit text with
     | some q => [⟨ty, Json.num q, unit⟩]
     | none => [])
  | FallbackPattern.bpPair =>
    (match scanBp text with
     | some (sys, dia) =>
       [⟨"bp_systolic", Json.num sys, "mmHg"⟩, ⟨"bp_diastolic", Json.num dia, "mmHg"⟩]
     | none => [])

/-- Regex-fallback extraction over the raw payload, patterns in table
order. -/
def regexFallback (s : String) : List BiomarkerData :=
  fallbackPatterns.foldr (fun p acc => runFallbackPattern (toLowerChars s.data) p ++ acc) []

/-- Embeds extractBiomarkers: parse the payload as JSON and extract by
report type; if parsing throws, or a property read on a null findings value
throws inside the try block, run the regex fallback over the raw text. -/
def extractBiomarkers (analysisFindings : String) (reportType : String) :
    List BiomarkerData :=
  match jsonParse analysisFindings with
  | some findings =>
    (match structuredExtract findings reportType with
     | Except.ok l => l
     | Except.error _ => regexFallback analysisFindings)
  | none => regexFallback analysisFindings

/-- True when an Except-valued scorer call returned a result rather than
throwing. -/
def scorerSucceeds (e : Except String RiskAssessmentResult) : Bool :=
  match e with
  | Except.ok _ => true
  | Except.error _ => false

/-! ## Helper lemmas -/

theorem fieldIfDefined_mem (j : Json) (k ty u : String) (v : Json)
    (h : jsGetV j k = some v) :
    (⟨ty, v, u⟩ : BiomarkerData) ∈ fieldIfDefined j k ty u := by
  simp [fieldIfDefined, h]

theorem fieldIfTruthy_eq_nil_of_zero (j : Json) (k ty u : String)
    (h : jsGetV j k = some (Json.num 0)) : fieldIfTruthy j k ty u = [] := by
  simp [fieldIfTruthy, h, jsTruthyJson]

theorem fieldIfTruthy_all_ne (j : Json) (k ty u ty2 : String) (h : ty ≠ ty2) :
    ((fieldIfTruthy j k ty u).all fun b => b.type != ty2) = true := by
  unfold fieldIfTruthy
  cases jsGetV j k with
  | none => rfl
  | some v =>
    by_cases hv : jsTruthyJson (some v) = true
    · simp [hv, h]
    · simp [hv]

theorem fieldIfDefined_all_ne (j : Json) (k ty u ty2 : String) (h : ty ≠ ty2) :
    ((fieldIfDefined j k ty u).all fun b => b.type != ty2) = true := by
  unfold fieldIfDefined
  cases jsGetV j k with
  | none => rfl
  | some v => simp [h]

/-! ## Claims -/

/-- C1: the claim says a biomarker with lowerIsBetter = true and a strictly
decreasing (over time) history of at least 3 observations whose spec-defined
trendDirection (OLS slope with oldest = index 0, normalized to percent of
mean per step) is below -5 is classified IMPROVING.  The source instead
passes the history to the regression in the reverse-chronological order the
database query returns it, which negates the slope: on the chronologically
strictly decreasing history 3, 2, 1 (spec trendDirection -50 < -5) of the
lowerIsBetter biomarker cholesterol_ldl, the code classifies WORSENING. -/
theorem c1_decreasing_history_classified_worsening :
    (getBiomarkerThresholds "cholesterol_ldl").lowerIsBetter = true
    ∧ specTrendDirectionOldestFirst [3, 2, 1] < -5
    ∧ (analyzeBiomarkerTrend "cholesterol_ldl" [1, 2, 3] 2).trend = Trend.WORSENING := by
  refine ⟨rfl, ?_, ?_⟩
  · norm_num [specTrendDirectionOldestFirst, List.enum, List.range, List.range.loop]
  · norm_num [analyzeBiomarkerTrend, calculateTrendDirection, getBiomarkerThresholds,
      jsMul100, jsDivQ, jsLtQ, jsGtQ, List.enum, List.range, List.range.loop]
    decide

/-- C2: the claim says that when the second-most-recent value is exactly 0
the classifier reports the percent change as undefined/omitted rather than
returning Infinity or NaN.  The source divides by previousValue unguarded:
on history current 5, previous 0 it returns changePercent = Infinity to the
caller. -/
theorem c2_changePercent_division_by_zero_is_infinity :
    (analyzeBiomarkerTrend "cholesterol_ldl" [5, 0] 2).changePercent
      = some JsNum.posInf := by
  norm_num [analyzeBiomarkerTrend, jsMul100, jsDivQ]

/-- C3: the regression uses at most the last 12 measurements: a 20-element
history (most recent first, as the database query orders it) and its
12 most recent elements produce the same trend result, trendDirection and
classification included. -/
theorem c3_regression_caps_history_at_12 (biomarkerType : String)
    (minDataPoints : ℕ) (history : List ℚ) (h : history.length = 20) :
    analyzeBiomarkerTrend biomarkerType history minDataPoints
      = analyzeBiomarkerTrend biomarkerType (history.take 12) minDataPoints := by
  unfold analyzeBiomarkerTrend
  rw [List.take_take, min_self]

theorem c3_regression_caps_history_at_12_witness :
    analyzeBiomarkerTrend "cholesterol_total"
        (List.map (fun i : ℕ => (i : ℚ)) (List.range 20)) 2
      = analyzeBiomarkerTrend "cholesterol_total"
          ((List.map (fun i : ℕ => (i : ℚ)) (List.range 20)).take 12) 2 :=
  c3_regression_caps_history_at_12 "cholesterol_total" 2 _
    (by rw [List.length_map, List.length_range])

/-- C4: for every RiskFactors input the aggregator's overallHealthScore lies
in the closed interval [0, 100] (the source clamps with
Math.max(0, Math.min(100, score))). -/
theorem c4_healthScore_clamped (factors : RiskFactors) :
    0 ≤ (calculateComprehensiveRiskProfile factors).overallHealthScore
    ∧ (calculateComprehensiveRiskProfile factors).overallHealthScore ≤ 100 := by
  refine ⟨le_max_left 0 _, max_le (by norm_num) (min_le_left 100 _)⟩

/-- C5: the Framingham scorer fails with the missing-parameters error when
age, totalCholesterol, hdlCholesterol or systolicBP is absent or zero, and
returns a result without error whenever all four are present and nonzero. -/
theorem c5_framingham_required_parameters (factors : RiskFactors) :
    ((factors.age = 0
        ∨ factors.totalCholesterol = none ∨ factors.totalCholesterol = some 0
        ∨ factors.hdlCholesterol = none ∨ factors.hdlCholesterol = some 0
        ∨ factors.systolicBP = none ∨ factors.systolicBP = some 0) →
      calculateFraminghamRisk factors
        = Except.error "Missing required parameters for Framingham calculation")
    ∧ ((factors.age ≠ 0
        ∧ (∃ tc, factors.totalCholesterol = some tc ∧ tc ≠ 0)
        ∧ (∃ hdl, factors.hdlCholesterol = some hdl ∧ hdl ≠ 0)
        ∧ (∃ sbp, factors.systolicBP = some sbp ∧ sbp ≠ 0)) →
      scorerSucceeds (calculateFraminghamRisk factors) = true) := by
  constructor
  · intro h
    have hguard : (!jsTruthyQ factors.age || !jsTruthyOptQ factors.totalCholesterol
        || !jsTruthyOptQ factors.hdlCholesterol || !jsTruthyOptQ factors.systolicBP) = true := by
      rcases h with h | h | h | h | h | h | h <;> simp [jsTruthyQ, jsTruthyOptQ, h]
    unfold calculateFraminghamRisk
    rw [if_pos hguard]
  · rintro ⟨ha, ⟨tc, htc, htc0⟩, ⟨hdl, hhdl, hhdl0⟩, ⟨sbp, hsbp, hsbp0⟩⟩
    have hguard : ¬((!jsTruthyQ factors.age || !jsTruthyOptQ factors.totalCholesterol
        || !jsTruthyOptQ factors.hdlCholesterol || !jsTruthyOptQ factors.systolicBP) = true) := by
      simp [jsTruthyQ, jsTruthyOptQ, ha, htc, htc0, hhdl, hhdl0, hsbp, hsbp0]
    unfold calculateFraminghamRisk scorerSucceeds
    rw [if_neg hguard]

theorem c5_framingham_required_parameters_witness :
    calculateFraminghamRisk { age := 0, biologicalSex := BiologicalSex.MALE }
        = Except.error "Missing required parameters for Framingham calculation"
    ∧ scorerSucceeds (calculateFraminghamRisk
        { age := 52, biologicalSex := BiologicalSex.MALE,
          totalCholesterol := some 195, hdlCholesterol := some 48,
          systolicBP := some 135 }) = true :=
  ⟨(c5_framingham_required_parameters _).1 (Or.inl rfl),
   (c5_framingham_required_parameters _).2
     ⟨by norm_num, ⟨195, rfl, by norm_num⟩, ⟨48, rfl, by norm_num⟩,
      ⟨135, rfl, by norm_num⟩⟩⟩

/-- C6: the aggregator called with smokingStatus = CURRENT and no scorable
risk factors (the cardiovascular gate fields absent; age zero, or neither
weight nor fastingGlucose truthy) returns healthScore 85 with both scorer
results absent; being a total function, no missing-parameter failure
escapes it. -/
theorem c6_aggregator_smoker_only (factors : RiskFactors)
    (htc : factors.totalCholesterol = none)
    (hhdl : factors.hdlCholesterol = none)
    (hsbp : factors.systolicBP = none)
    (hdiab : factors.age = 0
      ∨ (jsTruthyOptQ factors.weight = false ∧ jsTruthyOptQ factors.fastingGlucose = false))
    (hsmoke : factors.smokingStatus = some SmokingStatus.CURRENT) :
    calculateComprehensiveRiskProfile factors
      = { framingham := none, diabetes := none, overallHealthScore := 85 } := by
  have hfgate : jsTruthyOptQ factors.totalCholesterol = false := by
    rw [htc]; rfl
  have hdgate : (jsTruthyQ factors.age
      && (jsTruthyOptQ factors.weight || jsTruthyOptQ factors.fastingGlucose)) = false := by
    rcases hdiab with hage | ⟨hw, hg⟩
    · have : jsTruthyQ factors.age = false := by
        rw [hage]; rfl
      rw [this, Bool.false_and]
    · simp [hw, hg]
  unfold calculateComprehensiveRiskProfile
  rw [hfgate, hdgate]
  simp only [Bool.false_and, Bool.false_eq_true, if_false, hsmoke]
  rw [show framinghamDeduction none = 0 from rfl,
    show diabetesDeduction none = 0 from rfl,
    show smokingDeduction (some SmokingStatus.CURRENT) = 15 from rfl]
  norm_num

theorem c6_aggregator_smoker_only_witness :
    calculateComprehensiveRiskProfile
        { age := 0, biologicalSex := BiologicalSex.MALE,
          smokingStatus := some SmokingStatus.CURRENT }
      = { framingham := none, diabetes := none, overallHealthScore := 85 } :=
  c6_aggregator_smoker_only _ rfl rfl rfl (Or.inl rfl) rfl

/-- C7 counterexample: the claim's prediabetic bands, read as the closed
intervals [100, 125] and [5.7, 6.4], disagree with the code: fasting glucose
125.5 and HbA1c 6.45 are outside the closed bands yet each earns +3 points
from the scorer. -/
theorem c7_closed_bands_counterexample :
    (calculateDiabetesRisk
      { age := 0, biologicalSex := BiologicalSex.FEMALE,
        fastingGlucose := some (251 / 2) }).score = 3
    ∧ claimClosedBandPoints (some (251 / 2)) none = 0
    ∧ (calculateDiabetesRisk
      { age := 0, biologicalSex := BiologicalSex.FEMALE,
        hba1c := some (129 / 20) }).score = 3
    ∧ claimClosedBandPoints none (some (129 / 20)) = 0 := by
  refine ⟨?_, ?_, ?_, ?_⟩ <;>
    norm_num [calculateDiabetesRisk, diabetesAgePoints, diabetesBmiPoints,
      diabetesWaistPoints, diabetesFamilyPoints, diabetesBpPoints,
      diabetesGlucosePoints, diabetesHba1cPoints, claimClosedBandPoints] <;>
    decide

/-- C7 amended: the diabetes scorer adds +3 exactly when fastingGlucose is
present with 100 ≤ value < 126, and a further +3 exactly when hba1c is
present with 5.7 ≤ value < 6.5 (half-open bands); values outside these
bands, and absent fields, contribute nothing from these two rules. -/
theorem c7_prediabetic_band_points (factors : RiskFactors) :
    (calculateDiabetesRisk factors).score
      = (calculateDiabetesRisk
          { factors with fastingGlucose := none, hba1c := none }).score
        + (match factors.fastingGlucose with
           | some g => if 100 ≤ g ∧ g < 126 then (3 : ℚ) else 0
           | none => 0)
        + (match factors.hba1c with
           | some h => if 5.7 ≤ h ∧ h < 6.5 then (3 : ℚ) else 0
           | none => 0) := by
  have hg : diabetesGlucosePoints factors.fastingGlucose
      = (match factors.fastingGlucose with
         | some g => if 100 ≤ g ∧ g < 126 then (3 : ℚ) else 0
         | none => 0) := by
    cases factors.fastingGlucose with
    | none => rfl
    | some g =>
      dsimp only [diabetesGlucosePoints]
      by_cases hband : 100 ≤ g ∧ g < 126
      · have hg0 : g ≠ 0 := by
          rintro rfl
          exact absurd hband.1 (by norm_num)
        rw [if_pos ⟨hg0, hband⟩, if_pos hband]
      · rw [if_neg (fun hc => hband hc.2), if_neg hband]
  have hh : diabetesHba1cPoints factors.hba1c
      = (match factors.hba1c with
         | some h => if 5.7 ≤ h ∧ h < 6.5 then (3 : ℚ) else 0
         | none => 0) := by
    cases factors.hba1c with
    | none => rfl
    | some h =>
      dsimp only [diabetesHba1cPoints]
      by_cases hband : 5.7 ≤ h ∧ h < 6.5
      · have hh0 : h ≠ 0 := by
          rintro rfl
          exact absurd hband.1 (by norm_num)
        rw [if_pos ⟨hh0, hband⟩, if_pos hband]
      · rw [if_neg (fun hc => hband hc.2), if_neg hband]
  simp only [calculateDiabetesRisk]
  rw [hg, hh]
  rw [show diabetesGlucosePoints none = 0 from rfl,
    show diabetesHba1cPoints none = 0 from rfl]
  ring

/-- C8: the extractor is a total function into observation lists; an empty
payload yields the empty list, and a payload that fails JSON parsing and
matches none of the fallback patterns yields the empty list — no error
crosses the extractor's boundary. -/
theorem c8_extractor_empty_and_nonmatching :
    (∀ reportType, extractBiomarkers "" reportType = [])
    ∧ ∀ (analysisFindings reportType : String),
        jsonParse analysisFindings = none →
        regexFallback analysisFindings = [] →
        extractBiomarkers analysisFindings reportType = [] := by
  constructor
  · intro reportType
    have h1 : jsonParse "" = none := rfl
    have h2 : regexFallback "" = [] := rfl
    simp [extractBiomarkers, h1, h2]
  · intro s reportType h1 h2
    simp [extractBiomarkers, h1, h2]

theorem c8_extractor_empty_and_nonmatching_witness :
    extractBiomarkers "no structured findings" "BLOOD_TEST" = [] :=
  c8_extractor_empty_and_nonmatching.2 "no structured findings" "BLOOD_TEST" rfl rfl

theorem cholesterolObs_all_ne (c : Json) (sub ty : String)
    (hmem : (sub, ty) ∈ [("total", "cholesterol_total"), ("hdl", "cholesterol_hdl"),
      ("ldl", "cholesterol_ldl"), ("triglycerides", "triglycerides")])
    (hzero : jsGetV c sub = some (Json.num 0)) :
    ((cholesterolObs c).all fun b => b.type != ty) = true := by
  simp only [List.mem_cons, List.not_mem_nil, or_false, Prod.mk.injEq] at hmem
  obtain ⟨rfl, rfl⟩ | ⟨rfl, rfl⟩ | ⟨rfl, rfl⟩ | ⟨rfl, rfl⟩ := hmem <;>
    simp only [cholesterolObs, List.all_append, Bool.and_eq_true] <;>
    refine ⟨⟨⟨?_, ?_⟩, ?_⟩, ?_⟩ <;>
    first
      | (rw [fieldIfTruthy_eq_nil_of_zero _ _ _ _ hzero]; rfl)
      | (refine fieldIfTruthy_all_ne _ _ _ _ _ ?_; decide)

/-- C9: zero is handled asymmetrically by the structured BLOOD_TEST path:
glucose/hba1c/creatinine fields equal to 0 still produce an observation with
value 0 (they are gated on !== undefined), while a cholesterol subfield equal
to 0 produces no observation of its type (truthiness gate), and a heartRate
of 0 in the ECG path produces no heart_rate observation. -/
theorem c9_zero_value_asymmetry (findings : Json) :
    (∀ l, structuredExtract findings "BLOOD_TEST" = Except.ok l →
      ((jsGetV findings "glucose" = some (Json.num 0) →
          (⟨"glucose_fasting", Json.num 0, "mg/dL"⟩ : BiomarkerData) ∈ l)
        ∧ (jsGetV findings "hba1c" = some (Json.num 0) →
          (⟨"hba1c", Json.num 0, "%"⟩ : BiomarkerData) ∈ l)
        ∧ (jsGetV findings "creatinine" = some (Json.num 0) →
          (⟨"creatinine", Json.num 0, "mg/dL"⟩ : BiomarkerData) ∈ l)
        ∧ (∀ sub ty, (sub, ty) ∈ [("total", "cholesterol_total"),
              ("hdl", "cholesterol_hdl"), ("ldl", "cholesterol_ldl"),
              ("triglycerides", "triglycerides")] →
            ∀ c, jsGetV findings "cholesterol" = some c →
              jsGetV c sub = some (Json.num 0) →
              (l.all fun b => b.type != ty) = true)))
    ∧ ∀ l, structuredExtract findings "ECG" = Except.ok l →
        jsGetV findings "heartRate" = some (Json.num 0) →
        (l.all fun b => b.type != "heart_rate") = true := by
  constructor
  · intro l hok
    have hl : l = bloodTestObs findings := by
      unfold structuredExtract at hok
      rw [if_pos rfl] at hok
      cases findings <;> simp_all
    subst hl
    refine ⟨?_, ?_, ?_, ?_⟩
    · intro h
      simp only [bloodTestObs, List.mem_append]
      exact Or.inl (Or.inl (Or.inr (fieldIfDefined_mem _ _ _ _ _ h)))
    · intro h
      simp only [bloodTestObs, List.mem_append]
      exact Or.inl (Or.inr (fieldIfDefined_mem _ _ _ _ _ h))
    · intro h
      simp only [bloodTestObs, List.mem_append]
      exact Or.inr (fieldIfDefined_mem _ _ _ _ _ h)
    · intro sub ty hpair c hc hzero
      have hgetD : (jsGetV findings "cholesterol").getD Json.null = c := by
        rw [hc]; rfl
      simp only [bloodTestObs, List.all_append, Bool.and_eq_true]
      refine ⟨⟨⟨?_, ?_⟩, ?_⟩, ?_⟩
      · by_cases hgate : jsTruthyJson (jsGetV findings "cholesterol") = true
        · rw [if_pos hgate, hgetD]
          exact cholesterolObs_all_ne c sub ty hpair hzero
        · rw [if_neg hgate]
          rfl
      · refine fieldIfDefined_all_ne _ _ _ _ _ ?_
        simp only [List.mem_cons, List.not_mem_nil, or_false, Prod.mk.injEq] at hpair
        obtain ⟨rfl, rfl⟩ | ⟨rfl, rfl⟩ | ⟨rfl, rfl⟩ | ⟨rfl, rfl⟩ := hpair <;> decide
      · refine fieldIfDefined_all_ne _ _ _ _ _ ?_
        simp only [List.mem_cons, List.not_mem_nil, or_false, Prod.mk.injEq] at hpair
        obtain ⟨rfl, rfl⟩ | ⟨rfl, rfl⟩ | ⟨rfl, rfl⟩ | ⟨rfl, rfl⟩ := hpair <;> decide
      · refine fieldIfDefined_all_ne _ _ _ _ _ ?_
        simp only [List.mem_cons, List.not_mem_nil, or_false, Prod.mk.injEq] at hpair
        obtain ⟨rfl, rfl⟩ | ⟨rfl, rfl⟩ | ⟨rfl, rfl⟩ | ⟨rfl, rfl⟩ := hpair <;> decide
  · intro l hok hzero
    have hl : l = ecgObs findings := by
      unfold structuredExtract at hok
      rw [if_neg (by decide), if_pos rfl] at hok
      cases findings <;> simp_all
    subst hl
    simp only [ecgObs, List.all_append, Bool.and_eq_true]
    refine ⟨?_, ?_⟩
    · rw [fieldIfTruthy_eq_nil_of_zero _ _ _ _ hzero]
      rfl
    · by_cases hq : jsTruthyJson
          (match jsGetV findings "intervals" with
           | none => none
           | some Json.null => none
           | some iv => jsGetV iv "QTc") = true
      · rw [if_pos hq]
        rfl
      · rw [if_neg hq]
        rfl

theorem c9_zero_value_asymmetry_witness :
    ((⟨"glucose_fasting", Json.num 0, "mg/dL"⟩ : BiomarkerData)
      ∈ bloodTestObs (Json.obj [("cholesterol", Json.obj [("total", Json.num 0)]),
          ("glucose", Json.num 0)]))
    ∧ ((bloodTestObs (Json.obj [("cholesterol", Json.obj [("total", Json.num 0)]),
          ("glucose", Json.num 0)])).all fun b => b.type != "cholesterol_total") = true
    ∧ ((ecgObs (Json.obj [("heartRate", Json.num 0)])).all
        fun b => b.type != "heart_rate") = true :=
  ⟨((c9_zero_value_asymmetry
        (Json.obj [("cholesterol", Json.obj [("total", Json.num 0)]),
          ("glucose", Json.num 0)])).1
      (bloodTestObs (Json.obj [("cholesterol", Json.obj [("total", Json.num 0)]),
        ("glucose", Json.num 0)])) rfl).1 rfl,
   ((c9_zero_value_asymmetry
        (Json.obj [("cholesterol", Json.obj [("total", Json.num 0)]),
          ("glucose", Json.num 0)])).1
      (bloodTestObs (Json.obj [("cholesterol", Json.obj [("total", Json.num 0)]),
        ("glucose", Json.num 0)])) rfl).2.2.2 "total" "cholesterol_total"
     (by simp) (Json.obj [("total", Json.num 0)]) rfl rfl,
   (c9_zero_value_asymmetry (Json.obj [("heartRate", Json.num 0)])).2
     (ecgObs (Json.obj [("heartRate", Json.num 0)])) rfl rfl⟩

/-- C10 counterexample: the payload "null" parses as valid JSON (the JSON
value null), yet under BLOOD_TEST the first property read on the parsed
value throws, the catch runs, and the extractor's result is the regex
fallback applied to the raw text — the text-pattern fallback is attempted
on a payload that parses as valid JSON, refuting the claim as stated. -/
theorem c10_null_payload_counterexample :
    jsonParse "null" = some Json.null
    ∧ structuredExtract Json.null "BLOOD_TEST" = Except.error ()
    ∧ extractBiomarkers "null" "BLOOD_TEST" = regexFallback "null" :=
  ⟨rfl, rfl, rfl⟩

theorem structuredExtract_ok_of_ne_null (findings : Json) (reportType : String)
    (hnn : findings ≠ Json.null) :
    structuredExtract findings reportType
      = Except.ok (if reportType = "BLOOD_TEST" then bloodTestObs findings
          else if reportType = "ECG" then ecgObs findings else []) := by
  unfold structuredExtract
  by_cases hbt : reportType = "BLOOD_TEST"
  · rw [if_pos hbt, if_pos hbt]
    cases findings <;> first | exact absurd rfl hnn | rfl
  · rw [if_neg hbt, if_neg hbt]
    by_cases hecg : reportType = "ECG"
    · rw [if_pos hecg, if_pos hecg]
      cases findings <;> first | exact absurd rfl hnn | rfl
    · rw [if_neg hecg, if_neg hecg]

/-- C10 amended: when the payload parses as a JSON value other than the
literal null (on null, the property read throws and the regex fallback does
run over the raw text), the fallback is never attempted: the extractor
returns exactly the structured extraction of the parsed value; in
particular the JSON-encoded string payload "Total Cholesterol: 210 mg/dL"
under BLOOD_TEST yields no observations even though its decoded text
matches a fallback pattern. -/
theorem c10_structured_result_unless_null :
    (∀ (s : String) (findings : Json) (reportType : String),
        jsonParse s = some findings → findings ≠ Json.null →
        extractBiomarkers s reportType
          = (if reportType = "BLOOD_TEST" then bloodTestObs findings
             else if reportType = "ECG" then ecgObs findings else []))
    ∧ extractBiomarkers "\"Total Cholesterol: 210 mg/dL\"" "BLOOD_TEST" = []
    ∧ regexFallback "Total Cholesterol: 210 mg/dL" ≠ [] := by
  refine ⟨?_, rfl, ?_⟩
  · intro s findings reportType h1 hnn
    simp [extractBiomarkers, h1, structuredExtract_ok_of_ne_null findings reportType hnn]
  · rw [show regexFallback "Total Cholesterol: 210 mg/dL"
        = [⟨"cholesterol_total", Json.num 210, "mg/dL"⟩] from rfl]
    exact List.cons_ne_nil _ _

theorem c10_structured_result_unless_null_witness :
    extractBiomarkers "\x7b\"glucose\": 0\x7d" "BLOOD_TEST"
      = (if "BLOOD_TEST" = "BLOOD_TEST" then
          bloodTestObs (Json.obj [("glucose", Json.num 0)])
        else if "BLOOD_TEST" = "ECG" then
          ecgObs (Json.obj [("glucose", Json.num 0)])
        else []) :=
  c10_structured_result_unless_null.1 "\x7b\"glucose\": 0\x7d"
    (Json.obj [("glucose", Json.num 0)]) "BLOOD_TEST" rfl
    (fun h => Json.noConfusion h)

end Medlyze
